import Mathlib

/-!
# Verification of the todo-app authentication and authorization core

A shallow embedding, in Lean 4, of the phase-2 backend of the todo
application: the credential hasher wrappers (`models/user.py`), the JWT
codec (`auth/jwt.py`), the identity-extraction dependency
(`middleware/auth.py`), the auth service (`services/auth.py`), and the
task route handlers (`routes/tasks.py`).  Datetimes are modelled as
natural numbers counting whole seconds (the JWT library encodes `iat`
and `exp` at second resolution), UUIDs as natural numbers with their
canonical string rendering, and the database session as an explicit
list of records passed in and out.
-/

deriving instance DecidableEq for Except

namespace TodoApp

/-- Identifiers (`uuid.UUID` in the source) modelled as an opaque
numeric identity with canonical string serialization via `toString`. -/
abbrev UUID := Nat

/-! ### Python string primitives

Lean's `String.toLower`, `String.trim` and `String.splitOn` are
implemented on byte positions and do not reduce in the kernel, so the
Python string operations the source uses are embedded directly as
structural recursion over the character list. -/

/-- Python `str.lower()` (the source only lowercases ASCII data). -/
def pyLower (s : String) : String := ⟨s.data.map Char.toLower⟩

/-- Python `str.strip()`: drop leading and trailing whitespace. -/
def pyStrip (s : String) : String :=
  ⟨((s.data.dropWhile Char.isWhitespace).reverse.dropWhile Char.isWhitespace).reverse⟩

/-- Split a character list at every occurrence of a separator
character; mirrors Python `str.split(sep)` for a one-character `sep`. -/
def splitCharList (sep : Char) : List Char → List (List Char)
  | [] => [[]]
  | c :: rest =>
      let r := splitCharList sep rest
      if c = sep then [] :: r
      else
        match r with
        | [] => [[c]]
        | h :: t => (c :: h) :: t

/-- Python `sep in s` / `str.split(sep)` lifted to `String`. -/
def pySplit (sep : Char) (s : String) : List String :=
  (splitCharList sep s.data).map List.asString

/-- Python substring membership `needle in haystack`. -/
def containsSub (haystack needle : List Char) : Bool :=
  match haystack with
  | [] => needle.isEmpty
  | _ :: rest => needle.isPrefixOf haystack || containsSub rest needle

/-- Python `needle in haystack` on strings. -/
def pyIn (needle haystack : String) : Bool :=
  containsSub haystack.data needle.data

/-! ## Credential hasher (`models/user.py`)

The wrappers `hash_password` / `verify_password` live in the source;
the argon2 primitive they call (`argon2.PasswordHasher`) is an external
library.  It is modelled from the spec below. -/

/-- Modelled from the spec: an argon2 digest is "an opaque,
self-describing string encoding algorithm, cost parameters, salt, and
digest".  `argon2` carries the per-call random salt and the digest
value; `malformed` stands for any string that does not parse as a
supported digest format. -/
inductive Digest where
  | argon2 (salt : Nat) (mac : Nat × String)
  | malformed (raw : String)
deriving DecidableEq, Repr

/-- Modelled from the spec: the argon2 compression of a plaintext under
a salt.  One-wayness is outside the embedding; the digest value is
modelled as an injective function of the salt and plaintext (the
collision-free idealization of a cryptographic hash). -/
def argon2Mac (salt : Nat) (password : String) : Nat × String :=
  (salt, password)

/-- The exceptions of `argon2.exceptions` that `PasswordHasher.verify`
raises on ordinary failures: `VerifyMismatchError` on a wrong password,
`InvalidHash` on a digest that does not parse. -/
inductive Argon2Exc where
  | verifyMismatch
  | invalidHash
deriving DecidableEq, Repr

/-- Modelled from the spec: `PasswordHasher.hash` salts each call and
produces a self-describing digest. The caller supplies the fresh random
salt. -/
def argon2HasherHash (salt : Nat) (password : String) : Digest :=
  .argon2 salt (argon2Mac salt password)

/-- Modelled from the spec: `PasswordHasher.verify` recomputes the
digest of the candidate plaintext under the stored salt and compares;
mismatch raises `VerifyMismatchError`, an unparseable digest raises
`InvalidHash`. -/
def argon2HasherVerify (hashed : Digest) (password : String) :
    Except Argon2Exc Unit :=
  match hashed with
  | .malformed _ => .error .invalidHash
  | .argon2 salt mac =>
      if mac = argon2Mac salt password then .ok () else .error .verifyMismatch

/-- `hash_password` from `models/user.py`: delegates to the module-level
`PasswordHasher`; the salt argument stands for the randomness the
library draws per call. -/
def hash_password (salt : Nat) (password : String) : Digest :=
  argon2HasherHash salt password

/-- `verify_password` from `models/user.py`: calls the hasher inside a
`try`, catching `VerifyMismatchError` and `InvalidHash` into `false`. -/
def verify_password (plain_password : String) (hashed_password : Digest) : Bool :=
  match argon2HasherVerify hashed_password plain_password with
  | .ok _ => true
  | .error .verifyMismatch => false
  | .error .invalidHash => false

/-! ## Error taxonomy (`handlers/errors.py`, `schemas/auth.py`) -/

/-- The observable shape of an `AuthError` from `handlers/errors.py`:
HTTP status code, machine-readable `ErrorCode`, user-facing message. -/
structure AuthError where
  status_code : Nat
  error_code : String
  message : String
deriving DecidableEq, Repr

/-- `InvalidCredentialsError` (401, `AUTH_INVALID_CREDENTIALS`). -/
def InvalidCredentialsError : AuthError :=
  ⟨401, "AUTH_INVALID_CREDENTIALS", "Invalid credentials"⟩

/-- `TokenExpiredError` (401, `AUTH_TOKEN_EXPIRED`). -/
def TokenExpiredError : AuthError :=
  ⟨401, "AUTH_TOKEN_EXPIRED", "Token expired"⟩

/-- `TokenInvalidError` (401, `AUTH_TOKEN_INVALID`). -/
def TokenInvalidError : AuthError :=
  ⟨401, "AUTH_TOKEN_INVALID", "Invalid token"⟩

/-- `TokenMissingError` (401, `AUTH_TOKEN_MISSING`). -/
def TokenMissingError : AuthError :=
  ⟨401, "AUTH_TOKEN_MISSING", "Token required"⟩

/-! ## User records and the auth service (`models/user.py`,
`services/auth.py`) -/

/-- The fields of the `users` table that the signin path reads. -/
structure User where
  id : UUID
  email : String
  password_hash : Digest
  is_active : Bool
deriving DecidableEq, Repr

/-- The email normalization applied before every lookup or insert:
`str(email).lower().strip()`. -/
def normalizeEmail (email : String) : String :=
  pyStrip (pyLower email)

/-- `select(User).where(User.email == normalized)` followed by
`scalar_one_or_none()` over the user store. -/
def findUserByEmail (db : List User) (email : String) : Option User :=
  db.find? (fun u => u.email == email)

/-- `AuthService.signin` from `services/auth.py`: look up the user by
normalized email; absent, inactive, or failed password verification all
raise `InvalidCredentialsError`. -/
def signin (db : List User) (email password : String) : Except AuthError User :=
  match findUserByEmail db (normalizeEmail email) with
  | none => .error InvalidCredentialsError
  | some user =>
      if !user.is_active then .error InvalidCredentialsError
      else if !(verify_password password user.password_hash) then
        .error InvalidCredentialsError
      else .ok user

/-! ## Token codec (`auth/jwt.py`, `config.py`)

Tokens are modelled structurally: an HS256-signed token is determined
by the signing key, the header algorithm, and the payload, and signing
is deterministic (equal payloads signed under equal keys give equal
token strings).  `garbage` stands for any string that does not parse as
a JWT.  Times are natural numbers in whole seconds, matching the
second-resolution encoding of `iat`/`exp` by the JWT library. -/

/-- The claims `auth/jwt.py` embeds: `sub`, `exp`, `iat`, `type`.
`sub` is optional to model payloads lacking it. -/
structure Claims where
  sub : Option String
  exp : Option Nat
  iat : Nat
  type : String
deriving DecidableEq, Repr

/-- A JWT as observed by the `jose` codec. -/
inductive Token where
  | signed (key : String) (alg : String) (payload : Claims)
  | garbage (raw : String)
deriving DecidableEq, Repr

/-- `Settings.BETTER_AUTH_SECRET` from `config.py`. -/
def BETTER_AUTH_SECRET : String :=
  "your-secret-key-here-minimum-32-characters-long"

/-- `Settings.ALGORITHM` from `config.py`. -/
def ALGORITHM : String := "HS256"

/-- `Settings.ACCESS_TOKEN_EXPIRE_SECONDS` (7 days). -/
def ACCESS_TOKEN_EXPIRE_SECONDS : Nat := 604800

/-- `Settings.REFRESH_TOKEN_EXPIRE_SECONDS` (30 days). -/
def REFRESH_TOKEN_EXPIRE_SECONDS : Nat := 2592000

/-- `jose.jwt.encode(payload, key, algorithm)`. -/
def joseEncode (payload : Claims) (key : String) (alg : String) : Token :=
  .signed key alg payload

/-- `jose.jwt.decode(token, key, algorithms)` evaluated at time `now`:
rejects unparseable tokens, a header algorithm outside the allowed
list, and a bad signature, in that order; then validates `exp` when
present.  The error value is the exception's message string, which the
middleware later inspects. -/
def joseDecode (token : Token) (key : String) (algorithms : List String)
    (now : Nat) : Except String Claims :=
  match token with
  | .garbage _ => .error "Error decoding token headers."
  | .signed k a payload =>
      if !(algorithms.contains a) then
        .error "The specified alg value is not allowed"
      else if k != key then .error "Signature verification failed."
      else
        match payload.exp with
        | some e => if e < now then .error "Signature has expired." else .ok payload
        | none => .ok payload

/-- `create_access_token` from `auth/jwt.py`: payload
`{sub, exp := now + delta, iat := now, type := "access"}` signed with
the shared secret; default lifetime 7 days. -/
def create_access_token (user_id : UUID) (expires_delta : Option Nat)
    (now : Nat) : Token :=
  let delta := expires_delta.getD ACCESS_TOKEN_EXPIRE_SECONDS
  joseEncode
    { sub := some (toString user_id), exp := some (now + delta), iat := now,
      type := "access" }
    BETTER_AUTH_SECRET ALGORITHM

/-- `create_refresh_token` from `auth/jwt.py`: same payload shape with
`type := "refresh"` and a 30-day default lifetime. -/
def create_refresh_token (user_id : UUID) (expires_delta : Option Nat)
    (now : Nat) : Token :=
  let delta := expires_delta.getD REFRESH_TOKEN_EXPIRE_SECONDS
  joseEncode
    { sub := some (toString user_id), exp := some (now + delta), iat := now,
      type := "refresh" }
    BETTER_AUTH_SECRET ALGORITHM

/-- `verify_token` from `auth/jwt.py`: decode with the shared secret
and `[ALGORITHM]`; any `JWTError` is re-raised with its message wrapped
in "Token verification failed: ...". -/
def verify_token (token : Token) (now : Nat) : Except String Claims :=
  match joseDecode token BETTER_AUTH_SECRET [ALGORITHM] now with
  | .ok payload => .ok payload
  | .error e => .error ("Token verification failed: " ++ e)

/-- `extract_user_id` from `auth/jwt.py`: verify, then reject a falsy
`sub` claim (absent or empty) with `JWTError("Token missing 'sub'
claim")`. -/
def extract_user_id (token : Token) (now : Nat) : Except String String :=
  match verify_token token now with
  | .error e => .error e
  | .ok payload =>
      match payload.sub with
      | none => .error "Token missing 'sub' claim"
      | some s =>
          if s = "" then .error "Token missing 'sub' claim" else .ok s

/-! ## Identity extractor (`middleware/auth.py`) -/

/-- `get_current_user_id` from `middleware/auth.py`: the strict
dependency used by protected routes.  No credentials raises
`TokenMissingError`; a verified payload with a falsy `sub` raises
`TokenInvalidError` (an `HTTPException`, which passes through the
`except JWTError` clause); a `JWTError` whose lowercased message
contains "expired" raises `TokenExpiredError`, any other `JWTError`
raises `TokenInvalidError`. -/
def get_current_user_id (credentials : Option Token) (now : Nat) :
    Except AuthError String :=
  match credentials with
  | none => .error TokenMissingError
  | some token =>
      match verify_token token now with
      | .ok payload =>
          match payload.sub with
          | none => .error TokenInvalidError
          | some s => if s = "" then .error TokenInvalidError else .ok s
      | .error e =>
          if pyIn "expired" (pyLower e) then .error TokenExpiredError
          else .error TokenInvalidError

/-! ## Token issuance by the auth service (`services/auth.py`) -/

/-- The token response dictionary built by
`AuthService.generate_tokens`. -/
structure TokenPair where
  access_token : Token
  refresh_token : Token
  token_type : String
  expires_in : Nat
deriving DecidableEq, Repr

/-- `AuthService.generate_tokens`: a fresh access/refresh pair computed
at call time `now` (whole seconds), with fixed `token_type` and
`expires_in`. -/
def generate_tokens (user_id : UUID) (now : Nat) : TokenPair :=
  { access_token := create_access_token user_id none now,
    refresh_token := create_refresh_token user_id none now,
    token_type := "bearer",
    expires_in := 604800 }

/-! ## Task records (`models/task.py`, `schemas/task.py`) -/

/-- `TaskStatus` enum, in declaration order. -/
inductive TaskStatus where
  | pending
  | in_progress
  | completed
  | cancelled
deriving DecidableEq, Repr

/-- `TaskPriority` enum, in declaration order. -/
inductive TaskPriority where
  | low
  | medium
  | high
  | urgent
deriving DecidableEq, Repr

/-- The `tasks` table row. -/
structure Task where
  id : Nat
  user_id : UUID
  title : String
  description : Option String
  status : TaskStatus
  priority : TaskPriority
  due_date : Option Nat
  tags : List String
  created_at : Nat
  updated_at : Nat
deriving DecidableEq, Repr

/-- `TaskCreate` request body: exactly the six mutable payload fields
(no id, owner, or timestamps). -/
structure TaskCreate where
  title : String
  description : Option String
  status : TaskStatus
  priority : TaskPriority
  due_date : Option Nat
  tags : List String
deriving DecidableEq, Repr

/-- `TaskUpdate` request body: every field optional; `none` at the
outer level means the field was not provided (pydantic
`exclude_unset`). -/
structure TaskUpdate where
  title : Option String
  description : Option (Option String)
  status : Option TaskStatus
  priority : Option TaskPriority
  due_date : Option (Option Nat)
  tags : Option (List String)
deriving DecidableEq, Repr

/-- The error payload a task route raises (`ErrorDetail` or the inline
detail dict), together with the HTTP status code. -/
structure HTTPError where
  status_code : Nat
  error : String
  message : String
deriving DecidableEq, Repr

/-- `db.get(Task, task_id)`: primary-key lookup. -/
def dbGet (db : List Task) (task_id : Nat) : Option Task :=
  db.find? (fun t => t.id == task_id)

/-- Replace the first occurrence of a row in the session (the effect of
committing a mutated managed instance). -/
def dbReplace (old updated : Task) : List Task → List Task
  | [] => []
  | t :: rest =>
      if t == old then updated :: rest else t :: dbReplace old updated rest

/-! ## Task route handlers (`routes/tasks.py`) -/

/-- `GET /tasks/{task_id}` (`get_task`): 404 when absent, 403 when
owned by another user, else the task. -/
def get_task (db : List Task) (task_id : Nat) (user_id : UUID) :
    Except HTTPError Task :=
  match dbGet db task_id with
  | none => .error ⟨404, "TASK_NOT_FOUND", "Task not found"⟩
  | some task =>
      if task.user_id != user_id then
        .error ⟨403, "TASK_NOT_AUTHORIZED", "Not authorized to access this task"⟩
      else .ok task

/-- The `setattr` loop of `update_task`: overwrite the six
`TaskCreate` fields, then stamp `updated_at`. -/
def applyTaskCreate (task : Task) (task_in : TaskCreate) (now : Nat) : Task :=
  { task with
    title := task_in.title, description := task_in.description,
    status := task_in.status, priority := task_in.priority,
    due_date := task_in.due_date, tags := task_in.tags, updated_at := now }

/-- `PUT /tasks/{task_id}` (`update_task`): 404 when absent, 403 when
owned by another user, else commit the full replacement and return the
refreshed row with the new session state. -/
def update_task (db : List Task) (task_id : Nat) (task_in : TaskCreate)
    (user_id : UUID) (now : Nat) : Except HTTPError (List Task × Task) :=
  match dbGet db task_id with
  | none => .error ⟨404, "TASK_NOT_FOUND", "Task not found"⟩
  | some task =>
      if task.user_id != user_id then
        .error ⟨403, "TASK_NOT_AUTHORIZED", "Not authorized"⟩
      else
        let updated := applyTaskCreate task task_in now
        .ok (dbReplace task updated db, updated)

/-- The `exclude_unset` `setattr` loop of `patch_task`: overwrite only
the provided fields, then stamp `updated_at`. -/
def applyTaskUpdate (task : Task) (task_in : TaskUpdate) (now : Nat) : Task :=
  { task with
    title := task_in.title.getD task.title,
    description := task_in.description.getD task.description,
    status := task_in.status.getD task.status,
    priority := task_in.priority.getD task.priority,
    due_date := task_in.due_date.getD task.due_date,
    tags := task_in.tags.getD task.tags,
    updated_at := now }

/-- `PATCH /tasks/{task_id}` (`patch_task`): 404 when absent, 403 when
owned by another user, else commit the partial update. -/
def patch_task (db : List Task) (task_id : Nat) (task_in : TaskUpdate)
    (user_id : UUID) (now : Nat) : Except HTTPError (List Task × Task) :=
  match dbGet db task_id with
  | none => .error ⟨404, "TASK_NOT_FOUND", "Task not found"⟩
  | some task =>
      if task.user_id != user_id then
        .error ⟨403, "TASK_NOT_AUTHORIZED", "Not authorized"⟩
      else
        let updated := applyTaskUpdate task task_in now
        .ok (dbReplace task updated db, updated)

/-- `DELETE /tasks/{task_id}` (`delete_task`): 404 when absent, 403
when owned by another user, else remove the row. -/
def delete_task (db : List Task) (task_id : Nat) (user_id : UUID) :
    Except HTTPError (List Task) :=
  match dbGet db task_id with
  | none => .error ⟨404, "TASK_NOT_FOUND", "Task not found"⟩
  | some task =>
      if task.user_id != user_id then
        .error ⟨403, "TASK_NOT_AUTHORIZED", "Not authorized"⟩
      else .ok (db.erase task)

/-! ## Task listing (`list_tasks` in `routes/tasks.py`) -/

/-- The sortable columns accepted by `list_tasks`. -/
inductive SortField where
  | id
  | title
  | status
  | priority
  | due_date
  | created_at
  | updated_at
deriving DecidableEq, Repr

/-- The `allowed_fields` membership test, resolving a field name. -/
def allowedField (s : String) : Option SortField :=
  if s = "id" then some .id
  else if s = "title" then some .title
  else if s = "status" then some .status
  else if s = "priority" then some .priority
  else if s = "due_date" then some .due_date
  else if s = "created_at" then some .created_at
  else if s = "updated_at" then some .updated_at
  else none

/-- One item of the comma-separated sort spec: strip, then
`rsplit(':', 1)` into field and lowercased direction when a colon is
present, else direction `"asc"`. -/
def parseSortItem (s : String) : String × String :=
  let s := pyStrip s
  let parts := splitCharList ':' s.data
  if parts.length ≥ 2 then
    (List.asString (List.intercalate [':'] parts.dropLast),
      pyLower (List.asString (parts.getLastD [])))
  else (s, "asc")

/-- The sort-parsing loop: each item resolves to a column and a
descending flag, or the whole request fails 400 `INVALID_SORT_FIELD` at
the first unknown field. -/
def parseSortList : List String → Except HTTPError (List (SortField × Bool))
  | [] => .ok []
  | s :: rest =>
      let fd := parseSortItem s
      match allowedField fd.1 with
      | none =>
          .error ⟨400, "INVALID_SORT_FIELD", "Invalid sort field: " ++ fd.1⟩
      | some f =>
          match parseSortList rest with
          | .error e => .error e
          | .ok l => .ok ((f, fd.2 = "desc") :: l)

/-- Character comparison by code point. -/
def charCmp (a b : Char) : Ordering := compare a.toNat b.toNat

/-- Lexicographic comparison of character lists (string collation of
the external store, modelled by code point). -/
def charListCmp : List Char → List Char → Ordering
  | [], [] => .eq
  | [], _ :: _ => .lt
  | _ :: _, [] => .gt
  | a :: as', b :: bs' =>
      match charCmp a b with
      | .eq => charListCmp as' bs'
      | o => o

/-- String comparison used for the `title` sort column. -/
def strCmp (a b : String) : Ordering := charListCmp a.data b.data

/-- `NULL`-first comparison for nullable columns. -/
def optionCmp (cmp : α → α → Ordering) : Option α → Option α → Ordering
  | none, none => .eq
  | none, some _ => .lt
  | some _, none => .gt
  | some a, some b => cmp a b

/-- Position of a status in the SQL enum type (declaration order). -/
def statusRank : TaskStatus → Nat
  | .pending => 0
  | .in_progress => 1
  | .completed => 2
  | .cancelled => 3

/-- Position of a priority in the SQL enum type (declaration order). -/
def priorityRank : TaskPriority → Nat
  | .low => 0
  | .medium => 1
  | .high => 2
  | .urgent => 3

/-- Compare two rows on one sort column. -/
def fieldCmp (f : SortField) (a b : Task) : Ordering :=
  match f with
  | .id => compare a.id b.id
  | .title => strCmp a.title b.title
  | .status => compare (statusRank a.status) (statusRank b.status)
  | .priority => compare (priorityRank a.priority) (priorityRank b.priority)
  | .due_date => optionCmp compare a.due_date b.due_date
  | .created_at => compare a.created_at b.created_at
  | .updated_at => compare a.updated_at b.updated_at

/-- The composite `ORDER BY` comparison: first key decides, ties fall
to the next key; a `desc` flag flips the column order. -/
def sortKeyCmp (keys : List (SortField × Bool)) (a b : Task) : Ordering :=
  match keys with
  | [] => .eq
  | (f, descFlag) :: rest =>
      let c := fieldCmp f a b
      let c := if descFlag then c.swap else c
      match c with
      | .eq => sortKeyCmp rest a b
      | o => o

/-- Stable insertion into a sorted list. -/
def insertSortedTask (le : Task → Task → Bool) (t : Task) :
    List Task → List Task
  | [] => [t]
  | u :: rest =>
      if le t u then t :: u :: rest else u :: insertSortedTask le t rest

/-- The store's `ORDER BY` execution, modelled as insertion sort. -/
def sortTasks (le : Task → Task → Bool) : List Task → List Task
  | [] => []
  | t :: rest => insertSortedTask le t (sortTasks le rest)

/-- The `where_clauses` conjunction of `list_tasks`: owner scoping
first, then the optional status and priority filters. -/
def taskWhere (user_id : UUID) (status_f : Option TaskStatus)
    (priority_f : Option TaskPriority) (t : Task) : Bool :=
  t.user_id == user_id &&
    (match status_f with
     | none => true
     | some s => t.status == s) &&
    (match priority_f with
     | none => true
     | some p => t.priority == p)

/-- The body of `PaginatedResponse`. -/
structure PaginatedResponse where
  total : Nat
  page : Nat
  limit : Nat
  items : List Task
deriving DecidableEq, Repr

/-- `GET /tasks/` (`list_tasks`): filter at the query level by owner
plus the optional status/priority filters, count, parse the sort spec
(400 on an unknown field), order, and paginate with
`offset ((page - 1) * limit)` and `limit`. -/
def list_tasks (db : List Task) (page limit : Nat)
    (status_f : Option TaskStatus) (priority_f : Option TaskPriority)
    (sort : String) (user_id : UUID) : Except HTTPError PaginatedResponse :=
  let filtered := db.filter (taskWhere user_id status_f priority_f)
  let total := filtered.length
  match parseSortList (pySplit ',' sort) with
  | .error e => .error e
  | .ok keys =>
      let sorted :=
        sortTasks (fun a b => sortKeyCmp keys a b != Ordering.gt) filtered
      let items := (sorted.drop ((page - 1) * limit)).take limit
      .ok { total := total, page := page, limit := limit, items := items }

/-! ## Concrete fixtures for witnesses -/

/-- A task row with the given id and owner; timestamps derived from the
id. -/
def sampleTask (i : Nat) (owner : UUID) : Task :=
  { id := i, user_id := owner, title := "t", description := none,
    status := .pending, priority := .medium, due_date := none, tags := [],
    created_at := i, updated_at := i }

/-- A full-update request body. -/
def sampleCreate : TaskCreate :=
  { title := "new title", description := some "d", status := .completed,
    priority := .high, due_date := some 99, tags := ["x"] }

/-- A partial-update request body setting only the status. -/
def samplePatch : TaskUpdate :=
  { title := none, description := none, status := some .in_progress,
    priority := none, due_date := none, tags := none }

/-! ## Claims -/

/-- C1: every task-scoped read, full update, partial update, and delete
first fetches the task by id; an absent task fails 404 NotFound before
any ownership check; a present task owned by a different user fails 403
Forbidden; only an owner-matching task lets the operation proceed. -/
theorem c1_task_scoped_guard (db : List Task) (task_id : Nat) (caller : UUID)
    (task_in : TaskCreate) (patch_in : TaskUpdate) (now : Nat) :
    (dbGet db task_id = none →
      get_task db task_id caller = .error ⟨404, "TASK_NOT_FOUND", "Task not found"⟩ ∧
      update_task db task_id task_in caller now =
        .error ⟨404, "TASK_NOT_FOUND", "Task not found"⟩ ∧
      patch_task db task_id patch_in caller now =
        .error ⟨404, "TASK_NOT_FOUND", "Task not found"⟩ ∧
      delete_task db task_id caller = .error ⟨404, "TASK_NOT_FOUND", "Task not found"⟩) ∧
    (∀ task, dbGet db task_id = some task → task.user_id ≠ caller →
      get_task db task_id caller =
        .error ⟨403, "TASK_NOT_AUTHORIZED", "Not authorized to access this task"⟩ ∧
      update_task db task_id task_in caller now =
        .error ⟨403, "TASK_NOT_AUTHORIZED", "Not authorized"⟩ ∧
      patch_task db task_id patch_in caller now =
        .error ⟨403, "TASK_NOT_AUTHORIZED", "Not authorized"⟩ ∧
      delete_task db task_id caller =
        .error ⟨403, "TASK_NOT_AUTHORIZED", "Not authorized"⟩) ∧
    (∀ task, dbGet db task_id = some task → task.user_id = caller →
      get_task db task_id caller = .ok task ∧
      update_task db task_id task_in caller now =
        .ok (dbReplace task (applyTaskCreate task task_in now) db,
          applyTaskCreate task task_in now) ∧
      patch_task db task_id patch_in caller now =
        .ok (dbReplace task (applyTaskUpdate task patch_in now) db,
          applyTaskUpdate task patch_in now) ∧
      delete_task db task_id caller = .ok (db.erase task)) := by
  refine ⟨?_, ?_, ?_⟩
  · intro h
    simp [get_task, update_task, patch_task, delete_task, h]
  · intro task h hne
    simp [get_task, update_task, patch_task, delete_task, h, hne]
  · intro task h heq
    simp [get_task, update_task, patch_task, delete_task, h, heq]

/-- Witness for C1: the three guard outcomes at concrete inputs. -/
theorem c1_task_scoped_guard_witness :
    get_task ([] : List Task) 1 5 = .error ⟨404, "TASK_NOT_FOUND", "Task not found"⟩ ∧
    get_task [sampleTask 1 5] 1 6 =
      .error ⟨403, "TASK_NOT_AUTHORIZED", "Not authorized to access this task"⟩ ∧
    delete_task [sampleTask 1 5] 1 6 =
      .error ⟨403, "TASK_NOT_AUTHORIZED", "Not authorized"⟩ ∧
    get_task [sampleTask 1 5] 1 5 = .ok (sampleTask 1 5) ∧
    delete_task [sampleTask 1 5] 1 5 = .ok ([sampleTask 1 5].erase (sampleTask 1 5)) := by
  have h1 := c1_task_scoped_guard ([] : List Task) 1 5 sampleCreate samplePatch 0
  have h2 := c1_task_scoped_guard [sampleTask 1 5] 1 6 sampleCreate samplePatch 0
  have h3 := c1_task_scoped_guard [sampleTask 1 5] 1 5 sampleCreate samplePatch 0
  have hget : dbGet [sampleTask 1 5] 1 = some (sampleTask 1 5) := by decide
  exact ⟨(h1.1 (by decide)).1,
    (h2.2.1 (sampleTask 1 5) hget (by decide)).1,
    (h2.2.1 (sampleTask 1 5) hget (by decide)).2.2.2,
    (h3.2.2 (sampleTask 1 5) hget rfl).1,
    (h3.2.2 (sampleTask 1 5) hget rfl).2.2.2⟩

/-- C10: an authorized full (PUT) or partial (PATCH) update never
changes the task's `id`, `user_id`, or `created_at`; the request
schemas carry no identifier or owner fields. -/
theorem c10_update_frame (db : List Task) (task_id : Nat) (caller : UUID)
    (task_in : TaskCreate) (patch_in : TaskUpdate) (now : Nat) (task : Task)
    (hget : dbGet db task_id = some task) (hown : task.user_id = caller) :
    (∀ db2 r, update_task db task_id task_in caller now = .ok (db2, r) →
      r.id = task.id ∧ r.user_id = task.user_id ∧ r.created_at = task.created_at) ∧
    (∀ db2 r, patch_task db task_id patch_in caller now = .ok (db2, r) →
      r.id = task.id ∧ r.user_id = task.user_id ∧ r.created_at = task.created_at) := by
  constructor
  · intro db2 r h
    simp [update_task, hget, hown] at h
    rw [← h.2]
    simp [applyTaskCreate]
  · intro db2 r h
    simp [patch_task, hget, hown] at h
    rw [← h.2]
    simp [applyTaskUpdate]

/-- Witness for C10: a concrete authorized PUT and PATCH preserve id,
owner, and creation time. -/
theorem c10_update_frame_witness :
    (sampleTask 1 5).user_id = 5 ∧
    ((applyTaskCreate (sampleTask 1 5) sampleCreate 7).id = 1 ∧
      (applyTaskCreate (sampleTask 1 5) sampleCreate 7).user_id = 5 ∧
      (applyTaskCreate (sampleTask 1 5) sampleCreate 7).created_at = 1) := by
  have h := c10_update_frame [sampleTask 1 5] 1 5 sampleCreate samplePatch 7
    (sampleTask 1 5) (by decide) rfl
  refine ⟨rfl, ?_⟩
  have := h.1 (dbReplace (sampleTask 1 5) (applyTaskCreate (sampleTask 1 5) sampleCreate 7)
    [sampleTask 1 5]) (applyTaskCreate (sampleTask 1 5) sampleCreate 7) (by decide)
  exact this

/-- C2: the three signin failure causes — no user with the normalized
email, an inactive matching user, and an active matching user whose
password fails verification — all produce the same
`InvalidCredentialsError` value, so they are indistinguishable from the
result alone. -/
theorem c2_signin_indistinguishable (db : List User) (email password : String) :
    (findUserByEmail db (normalizeEmail email) = none →
      signin db email password = .error InvalidCredentialsError) ∧
    (∀ u, findUserByEmail db (normalizeEmail email) = some u →
      u.is_active = false →
      signin db email password = .error InvalidCredentialsError) ∧
    (∀ u, findUserByEmail db (normalizeEmail email) = some u →
      u.is_active = true → verify_password password u.password_hash = false →
      signin db email password = .error InvalidCredentialsError) := by
  refine ⟨?_, ?_, ?_⟩
  · intro h
    simp [signin, h]
  · intro u h hin
    simp [signin, h, hin]
  · intro u h hact hver
    simp [signin, h, hact, hver]

/-- Witness for C2: the three failure scenarios at concrete inputs all
return the identical error value. -/
theorem c2_signin_indistinguishable_witness :
    signin [] "a@b.com" "secret12" = .error InvalidCredentialsError ∧
    signin [⟨1, "a@b.com", hash_password 0 "secret12", false⟩] "a@b.com" "secret12" =
      .error InvalidCredentialsError ∧
    signin [⟨1, "a@b.com", hash_password 0 "secret12", true⟩] "a@b.com" "wrong-pw" =
      .error InvalidCredentialsError := by
  have h1 := c2_signin_indistinguishable [] "a@b.com" "secret12"
  have h2 := c2_signin_indistinguishable
    [⟨1, "a@b.com", hash_password 0 "secret12", false⟩] "a@b.com" "secret12"
  have h3 := c2_signin_indistinguishable
    [⟨1, "a@b.com", hash_password 0 "secret12", true⟩] "a@b.com" "wrong-pw"
  exact ⟨h1.1 (by decide),
    h2.2.1 ⟨1, "a@b.com", hash_password 0 "secret12", false⟩ (by decide) rfl,
    h3.2.2 ⟨1, "a@b.com", hash_password 0 "secret12", true⟩ (by decide) rfl (by decide)⟩

/-- C4: verification succeeds on the digest of the same password, and
two hash calls with distinct random salts produce distinct digests that
both verify. -/
theorem c4_hash_verify_roundtrip (p : String) (s1 s2 : Nat) (h : s1 ≠ s2) :
    verify_password p (hash_password s1 p) = true ∧
    verify_password p (hash_password s2 p) = true ∧
    hash_password s1 p ≠ hash_password s2 p := by
  refine ⟨?_, ?_, ?_⟩ <;>
    simp [verify_password, hash_password, argon2HasherVerify, argon2HasherHash,
      argon2Mac, h]

/-- Witness for C4 at a concrete password and salts. -/
theorem c4_hash_verify_roundtrip_witness :
    verify_password "pw123456" (hash_password 0 "pw123456") = true ∧
    verify_password "pw123456" (hash_password 1 "pw123456") = true ∧
    hash_password 0 "pw123456" ≠ hash_password 1 "pw123456" :=
  c4_hash_verify_roundtrip "pw123456" 0 1 (by decide)

/-- C5: `verify_password` is a total boolean function (the argon2
mismatch and invalid-hash exceptions are caught); it accepts the exact
plaintext of a digest, rejects every mismatched plaintext, rejects
every malformed digest, and accepts only the plaintext a well-formed
digest was produced from. -/
theorem c5_verify_exact_and_total (p1 p2 : String) (s : Nat) (raw : String)
    (d : Digest) (h : p1 ≠ p2) :
    verify_password p1 (hash_password s p1) = true ∧
    verify_password p1 (hash_password s p2) = false ∧
    verify_password p1 (.malformed raw) = false ∧
    (∀ s0 p0, d = hash_password s0 p0 → verify_password p1 d = true → p1 = p0) := by
  refine ⟨?_, ?_, ?_, ?_⟩
  · simp [verify_password, hash_password, argon2HasherVerify, argon2HasherHash,
      argon2Mac]
  · simp [verify_password, hash_password, argon2HasherVerify, argon2HasherHash,
      argon2Mac, h, Ne.symm h]
  · simp [verify_password, argon2HasherVerify]
  · intro s0 p0 hd hv
    subst hd
    rcases eq_or_ne p0 p1 with hp | hp
    · exact hp.symm
    · simp [verify_password, hash_password, argon2HasherVerify, argon2HasherHash,
        argon2Mac, hp] at hv

/-- Witness for C5 at concrete passwords, salt, and digests. -/
theorem c5_verify_exact_and_total_witness :
    verify_password "correct1" (hash_password 3 "correct1") = true ∧
    verify_password "correct1" (hash_password 3 "other-pw") = false ∧
    verify_password "correct1" (.malformed "$2b$12$notargon") = false := by
  have h := c5_verify_exact_and_total "correct1" "other-pw" 3 "$2b$12$notargon"
    (hash_password 3 "correct1") (by decide)
  exact ⟨h.1, h.2.1, h.2.2.1⟩

/-- C3: a correctly signed token whose `exp` has passed fails
verification with the Expired condition and surfaces as
`TokenExpiredError`, while a token signed under a different key, a
wrong header algorithm, or an unparseable token surfaces as
`TokenInvalidError`; the two failure kinds are distinct values. -/
theorem c3_expired_vs_invalid :
    (∀ payload now e, payload.exp = some e → e < now →
      verify_token (.signed BETTER_AUTH_SECRET ALGORITHM payload) now =
        .error "Token verification failed: Signature has expired." ∧
      get_current_user_id (some (.signed BETTER_AUTH_SECRET ALGORITHM payload)) now =
        .error TokenExpiredError) ∧
    (∀ k a payload now, a ≠ ALGORITHM ∨ k ≠ BETTER_AUTH_SECRET →
      get_current_user_id (some (.signed k a payload)) now =
        .error TokenInvalidError) ∧
    (∀ raw now, get_current_user_id (some (.garbage raw)) now =
      .error TokenInvalidError) ∧
    TokenExpiredError ≠ TokenInvalidError := by
  refine ⟨?_, ?_, ?_, by decide⟩
  · intro payload now e he hlt
    have hdec : joseDecode (.signed BETTER_AUTH_SECRET ALGORITHM payload)
        BETTER_AUTH_SECRET [ALGORITHM] now = .error "Signature has expired." := by
      simp [joseDecode, he, hlt]
    constructor
    · simp [verify_token, hdec]
    · simp [get_current_user_id, verify_token, hdec,
        show pyIn "expired"
          (pyLower "Token verification failed: Signature has expired.") = true from
            by decide]
  · intro k a payload now h
    by_cases ha : a = ALGORITHM
    · have hk : k ≠ BETTER_AUTH_SECRET := by
        rcases h with h | h
        · exact absurd ha h
        · exact h
      have hdec : joseDecode (.signed k a payload) BETTER_AUTH_SECRET [ALGORITHM] now =
          .error "Signature verification failed." := by
        simp [joseDecode, ha, hk]
      simp [get_current_user_id, verify_token, hdec,
        show pyIn "expired"
          (pyLower "Token verification failed: Signature verification failed.") = false from
            by decide]
    · have hdec : joseDecode (.signed k a payload) BETTER_AUTH_SECRET [ALGORITHM] now =
          .error "The specified alg value is not allowed" := by
        simp [joseDecode, List.contains, Ne.symm ha]
        intro h'
        exact absurd h' ha
      simp [get_current_user_id, verify_token, hdec,
        show pyIn "expired"
          (pyLower "Token verification failed: The specified alg value is not allowed") = false from
            by decide]
  · intro raw now
    simp [get_current_user_id, verify_token, joseDecode,
      show pyIn "expired"
        (pyLower "Token verification failed: Error decoding token headers.") = false from
          by decide]

/-- Witness for C3: a concrete expired token and a concrete
tampered-key token produce the two distinct failures. -/
theorem c3_expired_vs_invalid_witness :
    get_current_user_id (some (.signed BETTER_AUTH_SECRET ALGORITHM
      { sub := some "7", exp := some 604800, iat := 0, type := "access" })) 604801 =
      .error TokenExpiredError ∧
    get_current_user_id (some (.signed "attacker-key" ALGORITHM
      { sub := some "7", exp := some 604800, iat := 0, type := "access" })) 10 =
      .error TokenInvalidError ∧
    get_current_user_id (some (.garbage "not.a.jwt")) 10 = .error TokenInvalidError := by
  have h := c3_expired_vs_invalid
  exact ⟨(h.1 { sub := some "7", exp := some 604800, iat := 0, type := "access" }
      604801 604800 rfl (by decide)).2,
    h.2.1 "attacker-key" ALGORITHM
      { sub := some "7", exp := some 604800, iat := 0, type := "access" } 10
      (Or.inr (by decide)),
    h.2.2.1 "not.a.jwt" 10⟩

/-- C6 counterexample: token issuance is deterministic at
second granularity — the access token is a pure function of the user id
and the issue second with no nonce, so two generateTokens calls for the
same user within the same second yield identical access tokens, not
distinct ones. -/
theorem c6_counterexample :
    (generate_tokens 42 1000).access_token =
      Token.signed BETTER_AUTH_SECRET ALGORITHM
        { sub := some "42", exp := some 605800, iat := 1000, type := "access" } ∧
    (generate_tokens 42 1000).access_token = (generate_tokens 42 1000).access_token := by
  exact ⟨by decide, rfl⟩

/-- C6 amended: every generateTokens call freshly computes its pair,
and two calls whose issue times differ (at the second granularity the
token encodes) produce distinct access tokens and distinct refresh
tokens; calls within the same second coincide. -/
theorem c6_fresh_tokens_amended (u : UUID) (now1 now2 : Nat) (h : now1 ≠ now2) :
    (generate_tokens u now1).access_token ≠ (generate_tokens u now2).access_token ∧
    (generate_tokens u now1).refresh_token ≠ (generate_tokens u now2).refresh_token ∧
    (generate_tokens u now1).access_token = (generate_tokens u now1).access_token := by
  refine ⟨?_, ?_, rfl⟩ <;>
  · intro heq
    simp [generate_tokens, create_access_token, create_refresh_token, joseEncode,
      Claims.mk.injEq] at heq
    exact h heq

/-- Witness for C6 amended at a concrete user and two distinct
seconds. -/
theorem c6_fresh_tokens_amended_witness :
    (generate_tokens 42 1000).access_token ≠ (generate_tokens 42 1001).access_token :=
  (c6_fresh_tokens_amended 42 1000 1001 (by decide)).1

/-- C7 counterexample: a correctly signed, unexpired token with no
`sub` claim passes `verify_token`, which returns its claims instead of
failing with a MissingSubject condition. -/
theorem c7_counterexample :
    verify_token (.signed BETTER_AUTH_SECRET ALGORITHM
      { sub := none, exp := some 1000, iat := 0, type := "access" }) 10 =
      .ok { sub := none, exp := some 1000, iat := 0, type := "access" } := by
  decide

/-- C7 amended: the codec's `verify_token` returns the claims of a
validly signed token even when `sub` is absent; the missing-subject
rejection happens downstream — `extract_user_id` fails with the
`JWTError` message "Token missing 'sub' claim" and the identity
extractor fails with the generic `TokenInvalidError`, not a distinct
MissingSubject condition. -/
theorem c7_missing_sub_amended (payload : Claims) (now : Nat)
    (hsub : payload.sub = none)
    (hlive : ∀ e, payload.exp = some e → ¬ e < now) :
    verify_token (.signed BETTER_AUTH_SECRET ALGORITHM payload) now = .ok payload ∧
    extract_user_id (.signed BETTER_AUTH_SECRET ALGORITHM payload) now =
      .error "Token missing 'sub' claim" ∧
    get_current_user_id (some (.signed BETTER_AUTH_SECRET ALGORITHM payload)) now =
      .error TokenInvalidError := by
  have hver : verify_token (.signed BETTER_AUTH_SECRET ALGORITHM payload) now =
      .ok payload := by
    rcases hexp : payload.exp with _ | e
    · simp [verify_token, joseDecode, hexp]
    · simp [verify_token, joseDecode, hexp, hlive e hexp]
  refine ⟨hver, ?_, ?_⟩
  · simp [extract_user_id, hver, hsub]
  · simp [get_current_user_id, hver, hsub]

/-- Witness for C7 amended at a concrete signed token without `sub`. -/
theorem c7_missing_sub_amended_witness :
    extract_user_id (.signed BETTER_AUTH_SECRET ALGORITHM
      { sub := none, exp := some 1000, iat := 0, type := "access" }) 10 =
      .error "Token missing 'sub' claim" ∧
    get_current_user_id (some (.signed BETTER_AUTH_SECRET ALGORITHM
      { sub := none, exp := some 1000, iat := 0, type := "access" })) 10 =
      .error TokenInvalidError := by
  have h := c7_missing_sub_amended
    { sub := none, exp := some 1000, iat := 0, type := "access" } 10 rfl
    (by intro e he hlt; simp at he; omega)
  exact ⟨h.2.1, h.2.2⟩

/-- C9: neither `verify_token` nor the identity extractor enforces the
`type` claim — an unexpired refresh token for user `u` passes
verification and identity extraction exactly as an access token does,
yielding the identity `str(u)`. -/
theorem c9_refresh_usable_as_access (u : UUID) (now tnow : Nat)
    (htime : tnow ≤ now + ACCESS_TOKEN_EXPIRE_SECONDS)
    (hsub : toString u ≠ "") :
    get_current_user_id (some (create_refresh_token u none now)) tnow =
      .ok (toString u) ∧
    get_current_user_id (some (create_access_token u none now)) tnow =
      .ok (toString u) ∧
    verify_token (create_refresh_token u none now) tnow =
      .ok { sub := some (toString u),
            exp := some (now + REFRESH_TOKEN_EXPIRE_SECONDS), iat := now,
            type := "refresh" } := by
  have hacc : ¬ now + ACCESS_TOKEN_EXPIRE_SECONDS < tnow := by omega
  have href : ¬ now + REFRESH_TOKEN_EXPIRE_SECONDS < tnow := by
    simp only [ACCESS_TOKEN_EXPIRE_SECONDS] at htime
    simp only [REFRESH_TOKEN_EXPIRE_SECONDS]
    omega
  refine ⟨?_, ?_, ?_⟩
  · simp [get_current_user_id, verify_token, joseDecode, create_refresh_token,
      joseEncode, href, hsub]
  · simp [get_current_user_id, verify_token, joseDecode, create_access_token,
      joseEncode, hacc, hsub]
  · simp [verify_token, joseDecode, create_refresh_token, joseEncode, href]

/-- Witness for C9: a concrete refresh token accepted at a protected
endpoint, with the same identity an access token yields. -/
theorem c9_refresh_usable_as_access_witness :
    get_current_user_id (some (create_refresh_token 7 none 100)) 200 = .ok "7" ∧
    get_current_user_id (some (create_access_token 7 none 100)) 200 = .ok "7" := by
  have h := c9_refresh_usable_as_access 7 100 200 (by decide) (by decide)
  exact ⟨h.1, h.2.1⟩

/-- Sorted insertion only adds the inserted element. -/
theorem mem_insertSortedTask {le : Task → Task → Bool} {t u : Task} :
    ∀ {l : List Task}, u ∈ insertSortedTask le t l → u = t ∨ u ∈ l := by
  intro l
  induction l with
  | nil =>
      intro h
      simp [insertSortedTask] at h
      exact Or.inl h
  | cons v rest ih =>
      intro h
      simp only [insertSortedTask] at h
      by_cases hc : le t v
      · rw [if_pos hc] at h
        rcases List.mem_cons.mp h with h1 | h2
        · exact Or.inl h1
        · exact Or.inr h2
      · rw [if_neg hc] at h
        rcases List.mem_cons.mp h with h1 | h2
        · exact Or.inr (List.mem_cons.mpr (Or.inl h1))
        · rcases ih h2 with ha | hb
          · exact Or.inl ha
          · exact Or.inr (List.mem_cons.mpr (Or.inr hb))

/-- Sorting is a rearrangement: members of the sorted list come from
the input. -/
theorem mem_sortTasks {le : Task → Task → Bool} {u : Task} :
    ∀ {l : List Task}, u ∈ sortTasks le l → u ∈ l := by
  intro l
  induction l with
  | nil => intro h; simp [sortTasks] at h
  | cons v rest ih =>
      intro h
      simp only [sortTasks] at h
      rcases mem_insertSortedTask h with h1 | h2
      · exact List.mem_cons.mpr (Or.inl h1)
      · exact List.mem_cons.mpr (Or.inr (ih h2))

/-- C8: for any population of task rows and any filters, pagination,
and sort spec, a successful listing as identity `A` returns only tasks
owned by `A` — the ownership restriction sits in the query's filter
predicate — so no task owned by any other identity `B` ever appears. -/
theorem c8_list_owner_scoped (db : List Task) (page limit : Nat)
    (status_f : Option TaskStatus) (priority_f : Option TaskPriority)
    (sort : String) (A : UUID) (res : PaginatedResponse)
    (h : list_tasks db page limit status_f priority_f sort A = .ok res) :
    (∀ t ∈ res.items, t.user_id = A) ∧
    (∀ B : UUID, B ≠ A → ∀ t ∈ res.items, t.user_id ≠ B) := by
  have hmem : ∀ t ∈ res.items, t.user_id = A := by
    intro t ht
    simp only [list_tasks] at h
    rcases hp : parseSortList (pySplit ',' sort) with e | keys
    · rw [hp] at h
      exact absurd h (by simp)
    · rw [hp] at h
      simp only [Except.ok.injEq] at h
      rw [← h] at ht
      simp only at ht
      have h1 : t ∈ (sortTasks
          (fun a b => sortKeyCmp keys a b != Ordering.gt)
          (db.filter (taskWhere A status_f priority_f))).drop ((page - 1) * limit) :=
        List.take_subset _ _ ht
      have h2 := List.drop_subset _ _ h1
      have h3 := mem_sortTasks h2
      have h4 := (List.mem_filter.mp h3).2
      simp only [taskWhere, Bool.and_eq_true, beq_iff_eq] at h4
      exact h4.1.1
  exact ⟨hmem, fun B hBA t ht => by rw [hmem t ht]; exact fun hc => hBA hc.symm⟩

/-- Witness for C8: a concrete population owned by identities 5 and 6,
listed as 5, returns only tasks of 5 and none of 6. -/
theorem c8_list_owner_scoped_witness :
    (∀ t ∈ [sampleTask 3 5, sampleTask 1 5], t.user_id = 5) ∧
    (∀ t ∈ [sampleTask 3 5, sampleTask 1 5], t.user_id ≠ 6) := by
  have h := c8_list_owner_scoped [sampleTask 1 5, sampleTask 2 6, sampleTask 3 5]
    1 20 none none "created_at:desc" 5
    { total := 2, page := 1, limit := 20, items := [sampleTask 3 5, sampleTask 1 5] }
    (by decide)
  exact ⟨h.1, h.2 6 (by decide)⟩

end TodoApp
